import Mathlib

/-!
# go-strava: request building of the activity and club endpoints

A shallow embedding of `activites.go` and `clubs.go`.  Every endpoint method
builds a path and a parameter set (`url.Values`), hands them to one of the
shared transport helpers (`get`, `postForm`, `put`) and returns what the helper
decoded, or its error.  The helpers themselves are not part of the two files;
they are a parameter of every method here.

* Go `int`, `int64`, `int8` are `Int`: the methods only compare with `0` and
  print in base 10, no arithmetic is done on them.
* Go `string` is `String`.
* `url.Values` (`map[string][]string`) is an association list with distinct
  keys, read through `Values.Get`.
-/

namespace GoStrava

/-! ## Standard-library pieces the methods call -/

/-- Base-10 rendering of an integer, `strconv.Itoa` and the `%d` verb of
`fmt.Sprintf`: the digits, after a `-` when the number is negative. -/
def Itoa : Int → String
  | Int.ofNat m => Nat.repr m
  | Int.negSucc m => "-" ++ Nat.repr (m + 1)

/-- The `%v` verb of `fmt.Sprintf` on a `bool`. -/
def fmtBool : Bool → String
  | true => "true"
  | false => "false"

/-- Go `url.Values`, a `map[string][]string`: each key is held once. -/
abbrev Values := List (String × List String)

/-- The fresh map `url.Values{}`. -/
def Values.empty : Values := []

/-- Map read `v[key]`; `none` when the key is absent. -/
def Values.Get (v : Values) (key : String) : Option (List String) :=
  List.lookup key v

/-- Go `Values.Set`: `v[key] = []string{value}`. -/
def Values.Set (v : Values) (key value : String) : Values :=
  v.filter (fun p => p.1 != key) ++ [(key, [value])]

/-- Go `Values.Add`: `v[key] = append(v[key], value)`. -/
def Values.Add (v : Values) (key value : String) : Values :=
  v.filter (fun p => p.1 != key) ++ [(key, (List.lookup key v).getD [] ++ [value])]

/-- The keys of the map. -/
def Values.keys (v : Values) : List String :=
  v.map Prod.fst

/-- UTF-8 bytes of one character. -/
def utf8Bytes (c : Char) : List Nat :=
  let v := c.toNat
  if v < 0x80 then [v]
  else if v < 0x800 then [0xC0 + v / 64, 0x80 + v % 64]
  else if v < 0x10000 then [0xE0 + v / 4096, 0x80 + (v / 64) % 64, 0x80 + v % 64]
  else [0xF0 + v / 262144, 0x80 + (v / 4096) % 64, 0x80 + (v / 64) % 64, 0x80 + v % 64]

/-- The bytes of a Go string. -/
def stringBytes (s : String) : List Nat :=
  s.toList.flatMap utf8Bytes

/-- Go string order `a < b`: lexicographic on bytes. -/
def bytesLess : List Nat → List Nat → Bool
  | [], [] => false
  | [], _ :: _ => true
  | _ :: _, [] => false
  | a :: as, b :: bs => if a < b then true else if b < a then false else bytesLess as bs

/-- Insertion of a key into an ascending key list. -/
def insertKey (k : String) : List String → List String
  | [] => [k]
  | x :: xs => if bytesLess (stringBytes k) (stringBytes x) then k :: x :: xs else x :: insertKey k xs

/-- Go `slices.Sort` on the key slice. -/
def sortKeys (ks : List String) : List String :=
  ks.foldr insertKey []

/-- Characters `url.QueryEscape` leaves as they are: ASCII letters, digits and `-_.~`. -/
def unreserved (c : Char) : Bool :=
  ('a' ≤ c && c ≤ 'z') || ('A' ≤ c && c ≤ 'Z') || ('0' ≤ c && c ≤ '9') ||
    c == '-' || c == '_' || c == '.' || c == '~'

/-- Upper-case hexadecimal digit, `"0123456789ABCDEF"[n]`. -/
def upperhex (n : Nat) : Char :=
  "0123456789ABCDEF".toList.getD n '0'

/-- What `url.QueryEscape` writes for one character. -/
def escapeChar (c : Char) : List Char :=
  if unreserved c then [c]
  else if c = ' ' then ['+']
  else (utf8Bytes c).flatMap (fun b => ['%', upperhex (b / 16), upperhex (b % 16)])

/-- Go `url.QueryEscape`. -/
def QueryEscape (s : String) : String :=
  String.mk (s.toList.flatMap escapeChar)

/-- Go `Values.Encode`: `key=value` pairs, keys ascending, joined by `&`. -/
def Values.Encode (v : Values) : String :=
  let pieces := (sortKeys v.keys).flatMap (fun k =>
    ((v.Get k).getD []).map (fun x => QueryEscape k ++ "=" ++ QueryEscape x))
  pieces.foldl (fun buf p => if buf.length > 0 then buf ++ "&" ++ p else buf ++ p) ""

/-! ## The transport helpers

`sc.get`, `sc.postForm` and `sc.put` are declared outside the two files.  A
helper receives the context and the arguments of the call, acts on the outside
world, leaves a decoded value in the destination it was given and returns an
error or `nil`. -/

/-- The arguments of one helper call, by helper. `β` is the type of a `put` body. -/
inductive Call (β : Type) where
  /-- Helper call `sc.get(ctx, path, params, &resp)` of `activites.go`; `params` may be `nil`. -/
  | get (path : String) (params : Option Values)
  /-- Helper call `sc.get(ctx, sc.accessToken, path, params, &resp)` of `clubs.go`. -/
  | getWithToken (accessToken : String) (path : String) (params : Option Values)
  /-- Helper call `sc.postForm(ctx, path, params, &resp)`. -/
  | postForm (path : String) (params : Values)
  /-- Helper call `sc.put(ctx, path, contentType, body, &resp)`. -/
  | put (path : String) (contentType : String) (body : β)

/-- HTTP verb category of a helper. -/
inductive Verb where
  | GET
  | POST
  | PUT
  deriving DecidableEq, Repr

/-- The verb a helper call stands for. -/
def Call.verb {β : Type} : Call β → Verb
  | .get _ _ => .GET
  | .getWithToken _ _ _ => .GET
  | .postForm _ _ => .POST
  | .put _ _ _ => .PUT

/-- The relative path of a helper call. -/
def Call.path {β : Type} : Call β → String
  | .get path _ => path
  | .getWithToken _ path _ => path
  | .postForm path _ => path
  | .put path _ _ => path

/-- The parameter set of a helper call: `none` for a `nil` map and for `put`, which has none. -/
def Call.params {β : Type} : Call β → Option Values
  | .get _ params => params
  | .getWithToken _ _ params => params
  | .postForm _ params => some params
  | .put _ _ _ => none

/-- Modelled from the spec: the request target the transport derives from a call, the
relative path followed, when the encoded query string is not empty, by `?` and
that string (section 4.1: the URL joins the base URL, the relative path and, for
GET, the encoded query string).  The base URL is left out. -/
def Call.target {β : Type} (c : Call β) : String :=
  let query := ((c.params).getD Values.empty).Encode
  if query.length > 0 then c.path ++ "?" ++ query else c.path

/-- A transport helper: from the context, the call and the world before, the value
left in the destination, the error returned (`none` is `nil`) and the world after. -/
abbrev Transport (Ctx W ε β α : Type) := Ctx → Call β → W → (α × Option ε) × W

/-- The outside world together with the helper calls made so far, oldest first. -/
structure Net (W β : Type) where
  world : W
  calls : List (Call β)

/-- One helper invocation: the call is recorded and the helper acts on the world. -/
def invoke {Ctx W ε β α : Type} (t : Transport Ctx W ε β α) (ctx : Ctx) (c : Call β)
    (n : Net W β) : (α × Option ε) × Net W β :=
  let r := t ctx c n.world
  (r.1, { world := r.2, calls := n.calls ++ [c] })

/-- A Go slice value: `none` is the `nil` slice. -/
abbrev Slice (τ : Type) := Option (List τ)

/-! ## activites.go -/

/-- Go struct `GeneralParams`. -/
structure GeneralParams where
  Page : Int
  PerPage : Int
  deriving DecidableEq, Repr

/-- Go struct `NewActivityRequest`; `T` stands for `time.Time`, field `Type` is named
after its type (the word is reserved here), and the string
types `ActivityType` and `SportType` are their underlying `string`. -/
structure NewActivityRequest (T : Type) where
  Name : String
  ActivityType : String
  SportType : String
  StartDateLocal : T
  ElapsedTime : Int
  Description : String
  Distance : Int
  Trainer : Int
  Commute : Int

/-- Method `CreateActivity`; `format` is `time.Time.Format(time.RFC3339)`. -/
def CreateActivity {Ctx W ε β α T : Type} (postForm : Transport Ctx W ε β α)
    (format : T → String) (ctx : Ctx) (payload : NewActivityRequest T) (n : Net W β) :
    (Option α × Option ε) × Net W β :=
  let params := Values.empty
  let params := params.Set "name" payload.Name
  let params := params.Set "type" payload.ActivityType
  let params := params.Set "sport_type" payload.SportType
  let params := params.Set "start_date_local" (format payload.StartDateLocal)
  let params := params.Set "elapsed_time" (Itoa payload.ElapsedTime)
  let params := params.Set "description" payload.Description
  let params := params.Set "distance" (Itoa payload.Distance)
  let params := params.Set "trainer" (Itoa payload.Trainer)
  let params := params.Set "commute" (Itoa payload.Commute)
  let path := "/activities"
  let r := invoke postForm ctx (.postForm path params) n
  match r.1.2 with
  | some err => ((none, some err), r.2)
  | none => ((some r.1.1, none), r.2)

/-- Method `GetActivity`. -/
def GetActivity {Ctx W ε β α : Type} (get : Transport Ctx W ε β α) (ctx : Ctx)
    (activityID : Int) (includeEfforts : Bool) (n : Net W β) :
    (Option α × Option ε) × Net W β :=
  let path := "/activities/" ++ Itoa activityID
  let params := Values.empty
  let params := params.Add "include_all_efforts" (fmtBool includeEfforts)
  let r := invoke get ctx (.get path (some params)) n
  match r.1.2 with
  | some err => ((none, some err), r.2)
  | none => ((some r.1.1, none), r.2)

/-- Method `GetActivityZones`. -/
def GetActivityZones {Ctx W ε β τ : Type} (get : Transport Ctx W ε β (Slice τ)) (ctx : Ctx)
    (activityID : Int) (n : Net W β) : (Slice τ × Option ε) × Net W β :=
  let path := "/activities/" ++ Itoa activityID
  let r := invoke get ctx (.get path none) n
  match r.1.2 with
  | some err => ((none, some err), r.2)
  | none => ((r.1.1, none), r.2)

/-- Go struct `ListActivityCommentsOptions`. -/
structure ListActivityCommentsOptions where
  PageSize : Int
  AfterCursor : String
  deriving DecidableEq, Repr

/-- Method `ListActivityComments`; `opt = none` is the `nil` pointer. -/
def ListActivityComments {Ctx W ε β τ : Type} (get : Transport Ctx W ε β (Slice τ)) (ctx : Ctx)
    (activityID : Int) (opt : Option ListActivityCommentsOptions) (n : Net W β) :
    (Slice τ × Option ε) × Net W β :=
  let path := "/activities/" ++ Itoa activityID ++ "/comments"
  let params := Values.empty
  let params :=
    match opt with
    | some opt =>
      let params := if opt.PageSize > 0 then params.Set "page_size" (Itoa opt.PageSize) else params
      let params := if opt.AfterCursor ≠ "" then params.Set "after_cursor" opt.AfterCursor else params
      params
    | none => params
  let r := invoke get ctx (.get path (some params)) n
  match r.1.2 with
  | some err => ((none, some err), r.2)
  | none => ((r.1.1, none), r.2)

/-- Method `ListActivityKudoers`. -/
def ListActivityKudoers {Ctx W ε β τ : Type} (get : Transport Ctx W ε β (Slice τ)) (ctx : Ctx)
    (activityID : Int) (opt : Option GeneralParams) (n : Net W β) :
    (Slice τ × Option ε) × Net W β :=
  let path := "/activities/" ++ Itoa activityID ++ "/kudos"
  let params := Values.empty
  let params :=
    match opt with
    | some opt =>
      let params := if opt.Page > 0 then params.Set "page" (Itoa opt.Page) else params
      let params := if opt.PerPage > 0 then params.Set "per_page" (Itoa opt.Page) else params
      params
    | none => params
  let r := invoke get ctx (.get path (some params)) n
  match r.1.2 with
  | some err => ((none, some err), r.2)
  | none => ((r.1.1, none), r.2)

/-- Method `ListActivityLaps`. -/
def ListActivityLaps {Ctx W ε β τ : Type} (get : Transport Ctx W ε β (Slice τ)) (ctx : Ctx)
    (activityID : Int) (n : Net W β) : (Slice τ × Option ε) × Net W β :=
  let path := "/activities/" ++ Itoa activityID ++ "/laps"
  let r := invoke get ctx (.get path none) n
  match r.1.2 with
  | some err => ((none, some err), r.2)
  | none => ((r.1.1, none), r.2)

/-- Go struct `ListAthleteActivitiesOptions`; the embedded `GeneralParams` promotes
`Page` and `PerPage`. -/
structure ListAthleteActivitiesOptions extends GeneralParams where
  Before : Int
  After : Int
  deriving DecidableEq, Repr

/-- Method `ListAthleteActivities`. -/
def ListAthleteActivities {Ctx W ε β τ : Type} (get : Transport Ctx W ε β (Slice τ)) (ctx : Ctx)
    (opt : Option ListAthleteActivitiesOptions) (n : Net W β) :
    (Slice τ × Option ε) × Net W β :=
  let path := "/athlete/activities"
  let params := Values.empty
  let params :=
    match opt with
    | some opt =>
      let params := if opt.Page > 0 then params.Set "page_size" (Itoa opt.Page) else params
      let params := if opt.PerPage > 0 then params.Set "per_page" (Itoa opt.Page) else params
      let params := if opt.Before > 0 then params.Set "before" (Itoa opt.Before) else params
      let params := if opt.After > 0 then params.Set "after" (Itoa opt.After) else params
      params
    | none => params
  let r := invoke get ctx (.get path (some params)) n
  match r.1.2 with
  | some err => ((none, some err), r.2)
  | none => ((r.1.1, none), r.2)

/-- Method `UpdateActivity`; `β` is `UpdatableActivity`. -/
def UpdateActivity {Ctx W ε β α : Type} (put : Transport Ctx W ε β α) (ctx : Ctx)
    (activityID : Int) (ua : β) (n : Net W β) : (Option α × Option ε) × Net W β :=
  let path := "/activities/" ++ Itoa activityID
  let r := invoke put ctx (.put path "application/json" ua) n
  match r.1.2 with
  | some err => ((none, some err), r.2)
  | none => ((some r.1.1, none), r.2)

/-! ## clubs.go -/

/-- Go struct `StravaClubs`: the token and the embedded client, which is where the
helper `get` comes from. -/
structure StravaClubs (Ctx W ε β α : Type) where
  accessToken : String
  get : Transport Ctx W ε β α

/-- Method `StravaClubs.GetById`. -/
def StravaClubs.GetById {Ctx W ε β α : Type} (sc : StravaClubs Ctx W ε β α) (ctx : Ctx)
    (id : Int) (n : Net W β) : (Option α × Option ε) × Net W β :=
  let path := "/clubs/" ++ Itoa id
  let r := invoke sc.get ctx (.getWithToken sc.accessToken path none) n
  match r.1.2 with
  | some err => ((none, some err), r.2)
  | none => ((some r.1.1, none), r.2)

/-- Method `StravaClubs.GetAdministrators`. -/
def StravaClubs.GetAdministrators {Ctx W ε β τ : Type} (sc : StravaClubs Ctx W ε β (Slice τ))
    (ctx : Ctx) (id : Int) (opt : Option GeneralParams) (n : Net W β) :
    (Slice τ × Option ε) × Net W β :=
  let path := "/clubs/" ++ Itoa id ++ "/admins"
  let params := Values.empty
  let params :=
    match opt with
    | some opt =>
      let params := if opt.Page > 0 then params.Set "page" (Itoa opt.Page) else params
      let params := if opt.Page > 0 then params.Set "per_page" (Itoa opt.PerPage) else params
      params
    | none => params
  let r := invoke sc.get ctx (.getWithToken sc.accessToken path (some params)) n
  match r.1.2 with
  | some err => ((none, some err), r.2)
  | none => ((r.1.1, none), r.2)

/-- Method `StravaClubs.GetActivities`. -/
def StravaClubs.GetActivities {Ctx W ε β τ : Type} (sc : StravaClubs Ctx W ε β (Slice τ))
    (ctx : Ctx) (id : Int) (opt : Option GeneralParams) (n : Net W β) :
    (Slice τ × Option ε) × Net W β :=
  let path := "/clubs/" ++ Itoa id ++ "/activities"
  let params := Values.empty
  let params :=
    match opt with
    | some opt =>
      let params := if opt.Page > 0 then params.Set "page" (Itoa opt.Page) else params
      let params := if opt.Page > 0 then params.Set "per_page" (Itoa opt.PerPage) else params
      params
    | none => params
  let r := invoke sc.get ctx (.getWithToken sc.accessToken path (some params)) n
  match r.1.2 with
  | some err => ((none, some err), r.2)
  | none => ((r.1.1, none), r.2)

/-- Method `StravaClubs.GetMembers`. -/
def StravaClubs.GetMembers {Ctx W ε β τ : Type} (sc : StravaClubs Ctx W ε β (Slice τ))
    (ctx : Ctx) (id : Int) (opt : Option GeneralParams) (n : Net W β) :
    (Slice τ × Option ε) × Net W β :=
  let path := "/clubs/" ++ Itoa id ++ "/members"
  let params := Values.empty
  let params :=
    match opt with
    | some opt =>
      let params := if opt.Page > 0 then params.Set "page" (Itoa opt.Page) else params
      let params := if opt.Page > 0 then params.Set "per_page" (Itoa opt.PerPage) else params
      params
    | none => params
  let r := invoke sc.get ctx (.getWithToken sc.accessToken path (some params)) n
  match r.1.2 with
  | some err => ((none, some err), r.2)
  | none => ((r.1.1, none), r.2)

/-! ## Handing on the helper's reply -/

/-- The outcome `out` of a method started in `n` is that of exactly one call of the
helper `t`: one call is added to the record, the world is the one the helper
left, the error returned is the helper's error unchanged, and the result is
`absent` (Go `nil`) when the helper gave an error and `present` of the decoded
value when it gave none. -/
def OneCall {Ctx W ε β α ρ : Type} (t : Transport Ctx W ε β α) (ctx : Ctx) (n : Net W β)
    (present : α → ρ) (absent : ρ) (out : (ρ × Option ε) × Net W β) : Prop :=
  ∃ c : Call β,
    out.2.calls = n.calls ++ [c] ∧
    out.2.world = (t ctx c n.world).2 ∧
    out.1.2 = (t ctx c n.world).1.2 ∧
    out.1.1 = (match (t ctx c n.world).1.2 with
      | some _ => absent
      | none => present (t ctx c n.world).1.1)

/-! ## Lemmas on the standard-library pieces -/

theorem unreserved_digitChar : ∀ d, d < 10 → unreserved (Nat.digitChar d) = true := by
  decide

theorem toDigitsCore_unreserved (fuel : Nat) : ∀ (n : Nat) (ds : List Char),
    (∀ c ∈ ds, unreserved c = true) →
    ∀ c ∈ Nat.toDigitsCore 10 fuel n ds, unreserved c = true := by
  induction fuel with
  | zero => intro n ds h c hc; simpa [Nat.toDigitsCore] using h c hc
  | succ fuel ih =>
    intro n ds h c hc
    have hd : unreserved (Nat.digitChar (n % 10)) = true :=
      unreserved_digitChar _ (Nat.mod_lt _ (by decide))
    have hds : ∀ x ∈ Nat.digitChar (n % 10) :: ds, unreserved x = true := by
      intro x hx
      rcases List.mem_cons.1 hx with rfl | hx
      · exact hd
      · exact h x hx
    simp only [Nat.toDigitsCore] at hc
    split at hc
    · exact hds c hc
    · exact ih _ _ hds c hc

theorem flatMap_escapeChar_of_unreserved : ∀ (cs : List Char),
    (∀ c ∈ cs, unreserved c = true) → cs.flatMap escapeChar = cs := by
  intro cs
  induction cs with
  | nil => intro _; rfl
  | cons c cs ih =>
    intro h
    have hc : escapeChar c = [c] := by simp [escapeChar, h c (List.mem_cons_self _ _)]
    rw [List.flatMap_cons, hc, ih (fun x hx => h x (List.mem_cons_of_mem _ hx))]
    rfl

theorem QueryEscape_Itoa_ofNat (m : Nat) :
    QueryEscape (Itoa (Int.ofNat m)) = Itoa (Int.ofNat m) := by
  have h : ∀ c ∈ Nat.toDigits 10 m, unreserved c = true :=
    toDigitsCore_unreserved _ _ _ (by simp)
  simp only [QueryEscape, Itoa, Nat.repr, List.asString, String.toList]
  rw [flatMap_escapeChar_of_unreserved _ h]

theorem QueryEscape_Itoa_pos (i : Int) (h : 0 < i) : QueryEscape (Itoa i) = Itoa i := by
  cases i with
  | ofNat m => exact QueryEscape_Itoa_ofNat m
  | negSucc m => exact absurd h (by simp)

theorem Encode_page_perPage (a b : String) (ha : QueryEscape a = a) (hb : QueryEscape b = b) :
    Values.Encode [("page", [a]), ("per_page", [b])] = "page=" ++ a ++ "&per_page=" ++ b := by
  have hk : sortKeys ["page", "per_page"] = ["page", "per_page"] := by decide
  have h1 : QueryEscape "page" = "page" := by decide
  have h2 : QueryEscape "per_page" = "per_page" := by decide
  simp only [Values.Encode, Values.keys, List.map, hk, List.flatMap_cons, List.flatMap_nil,
    Values.Get]
  simp [List.lookup, h1, h2, ha, hb, String.append_assoc]
  have hl : 0 < "page=".length := by decide
  have hj : "&" ++ ("per_page=" ++ b) = "&per_page=" ++ b := by
    rw [← String.append_assoc]; rfl
  rw [if_pos (Or.inl hl), hj]

theorem Values.Get_empty (key : String) : Values.empty.Get key = none := rfl

theorem Values.Get_Set (v : Values) (k x key : String) :
    (v.Set k x).Get key = if key = k then some [x] else v.Get key := by
  induction v with
  | nil =>
    by_cases h : key = k
    · subst h; simp [Values.Set, Values.Get, List.lookup]
    · simp [Values.Set, Values.Get, List.lookup, h, beq_eq_false_iff_ne.2 h]
  | cons p v ih =>
    obtain ⟨a, b⟩ := p
    simp only [Values.Set, Values.Get] at ih ⊢
    by_cases hak : a = k
    · subst hak
      by_cases h : key = a
      · subst h; simpa using ih
      · simpa [List.lookup, beq_eq_false_iff_ne.2 h, h] using ih
    · have hf : ((a, b) :: v).filter (fun p => p.1 != k) =
          (a, b) :: v.filter (fun p => p.1 != k) :=
        List.filter_cons_of_pos (by simpa using hak)
      rw [hf, List.cons_append]
      by_cases h : key = k
      · subst h
        have hka : (key == a) = false := beq_eq_false_iff_ne.2 (fun e => hak e.symm)
        simpa [List.lookup, hka] using ih
      · by_cases h2 : key = a
        · subst h2; simp [List.lookup, h]
        · simpa [List.lookup, beq_eq_false_iff_ne.2 h2, h] using ih

theorem Values.Get_Add_empty (k x key : String) :
    (Values.empty.Add k x).Get key = if key = k then some [x] else none := by
  by_cases h : key = k
  · subst h; simp [Values.Add, Values.empty, Values.Get, List.lookup]
  · simp [Values.Add, Values.empty, Values.Get, List.lookup, h, beq_eq_false_iff_ne.2 h]

/-! ## The helper call each method makes -/

theorem OneCall_pointer {Ctx W ε β α : Type} (t : Transport Ctx W ε β α) (ctx : Ctx)
    (c : Call β) (n : Net W β) :
    OneCall t ctx n some none
      (match (invoke t ctx c n).1.2 with
        | some err => ((none, some err), (invoke t ctx c n).2)
        | none => ((some (invoke t ctx c n).1.1, none), (invoke t ctx c n).2)) := by
  refine ⟨c, ?_⟩
  simp only [invoke]
  cases h : (t ctx c n.world).1.2 <;> simp

theorem OneCall_slice {Ctx W ε β τ : Type} (t : Transport Ctx W ε β (Slice τ)) (ctx : Ctx)
    (c : Call β) (n : Net W β) :
    OneCall t ctx n (fun resp => resp) none
      (match (invoke t ctx c n).1.2 with
        | some err => ((none, some err), (invoke t ctx c n).2)
        | none => (((invoke t ctx c n).1.1, none), (invoke t ctx c n).2)) := by
  refine ⟨c, ?_⟩
  simp only [invoke]
  cases h : (t ctx c n.world).1.2 <;> simp

theorem GetActivity_calls {Ctx W ε β α : Type} (get : Transport Ctx W ε β α) (ctx : Ctx)
    (activityID : Int) (includeEfforts : Bool) (n : Net W β) :
    (GetActivity get ctx activityID includeEfforts n).2.calls =
      n.calls ++ [Call.get ("/activities/" ++ Itoa activityID)
        (some (Values.empty.Add "include_all_efforts" (fmtBool includeEfforts)))] := by
  simp only [GetActivity, invoke]
  split <;> rfl

theorem GetActivityZones_calls {Ctx W ε β τ : Type} (get : Transport Ctx W ε β (Slice τ))
    (ctx : Ctx) (activityID : Int) (n : Net W β) :
    (GetActivityZones get ctx activityID n).2.calls =
      n.calls ++ [Call.get ("/activities/" ++ Itoa activityID) none] := by
  simp only [GetActivityZones, invoke]
  split <;> rfl

theorem ListActivityComments_calls {Ctx W ε β τ : Type} (get : Transport Ctx W ε β (Slice τ))
    (ctx : Ctx) (activityID : Int) (opt : Option ListActivityCommentsOptions) (n : Net W β) :
    (ListActivityComments get ctx activityID opt n).2.calls =
      n.calls ++ [Call.get ("/activities/" ++ Itoa activityID ++ "/comments")
        (some
          (let params := Values.empty
           match opt with
           | some opt =>
             let params :=
               if opt.PageSize > 0 then params.Set "page_size" (Itoa opt.PageSize) else params
             let params :=
               if opt.AfterCursor ≠ "" then params.Set "after_cursor" opt.AfterCursor else params
             params
           | none => params))] := by
  simp only [ListActivityComments, invoke]
  split <;> rfl

theorem ListActivityKudoers_calls {Ctx W ε β τ : Type} (get : Transport Ctx W ε β (Slice τ))
    (ctx : Ctx) (activityID : Int) (opt : Option GeneralParams) (n : Net W β) :
    (ListActivityKudoers get ctx activityID opt n).2.calls =
      n.calls ++ [Call.get ("/activities/" ++ Itoa activityID ++ "/kudos")
        (some
          (let params := Values.empty
           match opt with
           | some opt =>
             let params := if opt.Page > 0 then params.Set "page" (Itoa opt.Page) else params
             let params :=
               if opt.PerPage > 0 then params.Set "per_page" (Itoa opt.Page) else params
             params
           | none => params))] := by
  simp only [ListActivityKudoers, invoke]
  split <;> rfl

theorem ListAthleteActivities_calls {Ctx W ε β τ : Type}
    (get : Transport Ctx W ε β (Slice τ)) (ctx : Ctx)
    (opt : Option ListAthleteActivitiesOptions) (n : Net W β) :
    (ListAthleteActivities get ctx opt n).2.calls =
      n.calls ++ [Call.get "/athlete/activities"
        (some
          (let params := Values.empty
           match opt with
           | some opt =>
             let params :=
               if opt.Page > 0 then params.Set "page_size" (Itoa opt.Page) else params
             let params :=
               if opt.PerPage > 0 then params.Set "per_page" (Itoa opt.Page) else params
             let params := if opt.Before > 0 then params.Set "before" (Itoa opt.Before) else params
             let params := if opt.After > 0 then params.Set "after" (Itoa opt.After) else params
             params
           | none => params))] := by
  simp only [ListAthleteActivities, invoke]
  split <;> rfl

theorem GetAdministrators_calls {Ctx W ε β τ : Type} (sc : StravaClubs Ctx W ε β (Slice τ))
    (ctx : Ctx) (id : Int) (opt : Option GeneralParams) (n : Net W β) :
    (sc.GetAdministrators ctx id opt n).2.calls =
      n.calls ++ [Call.getWithToken sc.accessToken ("/clubs/" ++ Itoa id ++ "/admins")
        (some
          (let params := Values.empty
           match opt with
           | some opt =>
             let params := if opt.Page > 0 then params.Set "page" (Itoa opt.Page) else params
             let params :=
               if opt.Page > 0 then params.Set "per_page" (Itoa opt.PerPage) else params
             params
           | none => params))] := by
  simp only [StravaClubs.GetAdministrators, invoke]
  split <;> rfl

theorem GetActivities_calls {Ctx W ε β τ : Type} (sc : StravaClubs Ctx W ε β (Slice τ))
    (ctx : Ctx) (id : Int) (opt : Option GeneralParams) (n : Net W β) :
    (sc.GetActivities ctx id opt n).2.calls =
      n.calls ++ [Call.getWithToken sc.accessToken ("/clubs/" ++ Itoa id ++ "/activities")
        (some
          (let params := Values.empty
           match opt with
           | some opt =>
             let params := if opt.Page > 0 then params.Set "page" (Itoa opt.Page) else params
             let params :=
               if opt.Page > 0 then params.Set "per_page" (Itoa opt.PerPage) else params
             params
           | none => params))] := by
  simp only [StravaClubs.GetActivities, invoke]
  split <;> rfl

theorem GetMembers_calls {Ctx W ε β τ : Type} (sc : StravaClubs Ctx W ε β (Slice τ))
    (ctx : Ctx) (id : Int) (opt : Option GeneralParams) (n : Net W β) :
    (sc.GetMembers ctx id opt n).2.calls =
      n.calls ++ [Call.getWithToken sc.accessToken ("/clubs/" ++ Itoa id ++ "/members")
        (some
          (let params := Values.empty
           match opt with
           | some opt =>
             let params := if opt.Page > 0 then params.Set "page" (Itoa opt.Page) else params
             let params :=
               if opt.Page > 0 then params.Set "per_page" (Itoa opt.PerPage) else params
             params
           | none => params))] := by
  simp only [StravaClubs.GetMembers, invoke]
  split <;> rfl

theorem GetMembers_params_of_pos (opt : GeneralParams) (h : 0 < opt.Page) :
    (let params := Values.empty
     let params := if opt.Page > 0 then params.Set "page" (Itoa opt.Page) else params
     let params := if opt.Page > 0 then params.Set "per_page" (Itoa opt.PerPage) else params
     params) = [("page", [Itoa opt.Page]), ("per_page", [Itoa opt.PerPage])] := by
  simp [h, Values.Set, Values.empty]

/-! ## The claims -/

/-- Claim C4: for every club id and every options value with `Page > 0` and
`PerPage > 0`, `StravaClubs.GetMembers` makes one helper call, a `get` with path
`/clubs/<id>/members` and a parameter set that holds `page` with the decimal `Page`,
`per_page` with the decimal `PerPage` and no other key; `Values.Encode` of that set is
`page=<Page>&per_page=<PerPage>`; and when the helper returns no error the method
returns the decoded list as the helper left it, with a `nil` error. -/
theorem GetMembers_page_and_perPage {Ctx W ε β τ : Type} (sc : StravaClubs Ctx W ε β (Slice τ))
    (ctx : Ctx) (id : Int) (opt : GeneralParams) (n : Net W β)
    (hPage : 0 < opt.Page) (hPerPage : 0 < opt.PerPage) :
    ∃ params : Values,
      (sc.GetMembers ctx id (some opt) n).2.calls =
        n.calls ++ [Call.getWithToken sc.accessToken ("/clubs/" ++ Itoa id ++ "/members")
          (some params)] ∧
      (∀ key, params.Get key =
        if key = "page" then some [Itoa opt.Page]
        else if key = "per_page" then some [Itoa opt.PerPage] else none) ∧
      params.Encode = "page=" ++ Itoa opt.Page ++ "&per_page=" ++ Itoa opt.PerPage ∧
      (sc.GetMembers ctx id (some opt) n).1 =
        (match (sc.get ctx (Call.getWithToken sc.accessToken
            ("/clubs/" ++ Itoa id ++ "/members") (some params)) n.world).1.2 with
          | some err => (none, some err)
          | none => ((sc.get ctx (Call.getWithToken sc.accessToken
              ("/clubs/" ++ Itoa id ++ "/members") (some params)) n.world).1.1, none)) := by
  refine ⟨[("page", [Itoa opt.Page]), ("per_page", [Itoa opt.PerPage])], ?_, ?_, ?_, ?_⟩
  · rw [GetMembers_calls]
    simp only [GetMembers_params_of_pos opt hPage]
  · intro key
    by_cases h1 : key = "page"
    · subst h1; simp [Values.Get, List.lookup]
    · by_cases h2 : key = "per_page"
      · subst h2; simp [Values.Get, List.lookup]
      · have e1 : (key == "page") = false := beq_eq_false_iff_ne.2 h1
        have e2 : (key == "per_page") = false := beq_eq_false_iff_ne.2 h2
        simp [Values.Get, List.lookup, h1, h2, e1, e2]
  · exact Encode_page_perPage _ _ (QueryEscape_Itoa_pos _ hPage) (QueryEscape_Itoa_pos _ hPerPage)
  · simp only [StravaClubs.GetMembers, GetMembers_params_of_pos opt hPage, invoke]
    split <;> simp_all

/-- Witness of C4 at club 7 with `Page = 2`, `PerPage = 50` and a helper that decodes
the list `[3, 1, 2]`: the one call has path `/clubs/7/members`, its parameters encode
to `page=2&per_page=50`, and the list comes back as it is. -/
theorem GetMembers_page_and_perPage_witness :
    ∃ params : Values,
      (StravaClubs.GetMembers
          (⟨"token", fun _ _ w => ((some [3, 1, 2], none), w)⟩ :
            StravaClubs Unit Unit String Unit (Slice Nat))
          () 7 (some ⟨2, 50⟩) ⟨(), []⟩).2.calls =
        [Call.getWithToken "token" "/clubs/7/members" (some params)] ∧
      (∀ key, params.Get key =
        if key = "page" then some ["2"] else if key = "per_page" then some ["50"] else none) ∧
      params.Encode = "page=2&per_page=50" ∧
      (StravaClubs.GetMembers
          (⟨"token", fun _ _ w => ((some [3, 1, 2], none), w)⟩ :
            StravaClubs Unit Unit String Unit (Slice Nat))
          () 7 (some ⟨2, 50⟩) ⟨(), []⟩).1 = (some [3, 1, 2], none) :=
  GetMembers_page_and_perPage
    (⟨"token", fun _ _ w => ((some [3, 1, 2], none), w)⟩ :
      StravaClubs Unit Unit String Unit (Slice Nat))
    () 7 ⟨2, 50⟩ ⟨(), []⟩ (by decide) (by decide)

/-- Claim C3: for each of the six methods that take an options pointer, the helper call
made with a `nil` pointer and the one made with a pointer to the all-zero options value
both carry the empty parameter set. -/
theorem default_options_give_no_parameters {Ctx W ε β τ : Type}
    (get : Transport Ctx W ε β (Slice τ)) (sc : StravaClubs Ctx W ε β (Slice τ))
    (ctx : Ctx) (id : Int) (n : Net W β) :
    ((ListActivityComments get ctx id none n).2.calls =
        n.calls ++ [Call.get ("/activities/" ++ Itoa id ++ "/comments") (some Values.empty)] ∧
      (ListActivityComments get ctx id (some ⟨0, ""⟩) n).2.calls =
        n.calls ++ [Call.get ("/activities/" ++ Itoa id ++ "/comments") (some Values.empty)]) ∧
    ((ListActivityKudoers get ctx id none n).2.calls =
        n.calls ++ [Call.get ("/activities/" ++ Itoa id ++ "/kudos") (some Values.empty)] ∧
      (ListActivityKudoers get ctx id (some ⟨0, 0⟩) n).2.calls =
        n.calls ++ [Call.get ("/activities/" ++ Itoa id ++ "/kudos") (some Values.empty)]) ∧
    ((ListAthleteActivities get ctx none n).2.calls =
        n.calls ++ [Call.get "/athlete/activities" (some Values.empty)] ∧
      (ListAthleteActivities get ctx (some ⟨⟨0, 0⟩, 0, 0⟩) n).2.calls =
        n.calls ++ [Call.get "/athlete/activities" (some Values.empty)]) ∧
    ((sc.GetAdministrators ctx id none n).2.calls =
        n.calls ++ [Call.getWithToken sc.accessToken ("/clubs/" ++ Itoa id ++ "/admins")
          (some Values.empty)] ∧
      (sc.GetAdministrators ctx id (some ⟨0, 0⟩) n).2.calls =
        n.calls ++ [Call.getWithToken sc.accessToken ("/clubs/" ++ Itoa id ++ "/admins")
          (some Values.empty)]) ∧
    ((sc.GetActivities ctx id none n).2.calls =
        n.calls ++ [Call.getWithToken sc.accessToken ("/clubs/" ++ Itoa id ++ "/activities")
          (some Values.empty)] ∧
      (sc.GetActivities ctx id (some ⟨0, 0⟩) n).2.calls =
        n.calls ++ [Call.getWithToken sc.accessToken ("/clubs/" ++ Itoa id ++ "/activities")
          (some Values.empty)]) ∧
    ((sc.GetMembers ctx id none n).2.calls =
        n.calls ++ [Call.getWithToken sc.accessToken ("/clubs/" ++ Itoa id ++ "/members")
          (some Values.empty)] ∧
      (sc.GetMembers ctx id (some ⟨0, 0⟩) n).2.calls =
        n.calls ++ [Call.getWithToken sc.accessToken ("/clubs/" ++ Itoa id ++ "/members")
          (some Values.empty)]) := by
  refine ⟨⟨?_, ?_⟩, ⟨?_, ?_⟩, ⟨?_, ?_⟩, ⟨?_, ?_⟩, ⟨?_, ?_⟩, ⟨?_, ?_⟩⟩
  · rw [ListActivityComments_calls]
  · rw [ListActivityComments_calls]; rfl
  · rw [ListActivityKudoers_calls]
  · rw [ListActivityKudoers_calls]; rfl
  · rw [ListAthleteActivities_calls]
  · rw [ListAthleteActivities_calls]; rfl
  · rw [GetAdministrators_calls]
  · rw [GetAdministrators_calls]; rfl
  · rw [GetActivities_calls]
  · rw [GetActivities_calls]; rfl
  · rw [GetMembers_calls]
  · rw [GetMembers_calls]; rfl

/-- Claim C5: for every activity id and every `includeEfforts`, `GetActivity` makes one
helper call, a GET with path `/activities/<id>` and a parameter set whose only key is
`include_all_efforts`, holding the single value `true` or `false` after
`includeEfforts`; for id 12345 and `includeEfforts = true` the request target is
`/activities/12345?include_all_efforts=true`. -/
theorem GetActivity_request {Ctx W ε β α : Type} (get : Transport Ctx W ε β α) (ctx : Ctx)
    (activityID : Int) (includeEfforts : Bool) (n : Net W β) :
    (∃ params : Values,
      (GetActivity get ctx activityID includeEfforts n).2.calls =
        n.calls ++ [Call.get ("/activities/" ++ Itoa activityID) (some params)] ∧
      (Call.get ("/activities/" ++ Itoa activityID) (some params) : Call β).verb = Verb.GET ∧
      params.keys = ["include_all_efforts"] ∧
      ∀ key, params.Get key =
        if key = "include_all_efforts" then some [if includeEfforts then "true" else "false"]
        else none) ∧
    (∃ c : Call β,
      (GetActivity get ctx 12345 true n).2.calls = n.calls ++ [c] ∧
      c.verb = Verb.GET ∧
      c.path = "/activities/12345" ∧
      (c.params.map Values.Encode) = some "include_all_efforts=true" ∧
      c.target = "/activities/12345?include_all_efforts=true") := by
  refine ⟨⟨_, GetActivity_calls get ctx activityID includeEfforts n, rfl, rfl, ?_⟩,
    ⟨_, GetActivity_calls get ctx 12345 true n, rfl, rfl, rfl, rfl⟩⟩
  intro key
  rw [Values.Get_Add_empty]
  cases includeEfforts <;> rfl

/-- Claim C9: for every activity id and every non-nil options value,
`ListActivityComments` makes one helper call, a `get` with path
`/activities/<id>/comments`; in its parameter set `page_size` is present exactly when
`PageSize > 0`, with the decimal `PageSize`, `after_cursor` is present exactly when
`AfterCursor` is not empty, with `AfterCursor` as it is, and no other key is present. -/
theorem ListActivityComments_parameters {Ctx W ε β τ : Type}
    (get : Transport Ctx W ε β (Slice τ)) (ctx : Ctx) (activityID : Int)
    (opt : ListActivityCommentsOptions) (n : Net W β) :
    ∃ params : Values,
      (ListActivityComments get ctx activityID (some opt) n).2.calls =
        n.calls ++ [Call.get ("/activities/" ++ Itoa activityID ++ "/comments") (some params)] ∧
      ∀ key, params.Get key =
        if key = "page_size" then (if 0 < opt.PageSize then some [Itoa opt.PageSize] else none)
        else if key = "after_cursor" then
          (if opt.AfterCursor ≠ "" then some [opt.AfterCursor] else none)
        else none := by
  refine ⟨_, ListActivityComments_calls get ctx activityID (some opt) n, ?_⟩
  intro key
  dsimp only
  by_cases h1 : key = "page_size"
  · subst h1
    split_ifs <;> simp_all [Values.Get_Set, Values.Get_empty]
  · by_cases h2 : key = "after_cursor"
    · subst h2
      split_ifs <;> simp_all [Values.Get_Set, Values.Get_empty]
    · split_ifs <;> simp_all [Values.Get_Set, Values.Get_empty]

/-- Claim C10: for every non-nil options value, the parameter set `ListAthleteActivities`
hands to the helper holds `before` exactly when `Before > 0` and `after` exactly when
`After > 0`, each with the decimal rendering of its own field, whatever `Page` and
`PerPage` are; a zero or negative `Before` or `After` gives no key. -/
theorem ListAthleteActivities_before_after {Ctx W ε β τ : Type}
    (get : Transport Ctx W ε β (Slice τ)) (ctx : Ctx)
    (opt : ListAthleteActivitiesOptions) (n : Net W β) :
    ∃ params : Values,
      (ListAthleteActivities get ctx (some opt) n).2.calls =
        n.calls ++ [Call.get "/athlete/activities" (some params)] ∧
      params.Get "before" = (if 0 < opt.Before then some [Itoa opt.Before] else none) ∧
      params.Get "after" = (if 0 < opt.After then some [Itoa opt.After] else none) := by
  refine ⟨_, ListAthleteActivities_calls get ctx (some opt) n, ?_, ?_⟩
  · dsimp only
    split_ifs <;> simp_all [Values.Get_Set, Values.Get_empty]
  · dsimp only
    split_ifs <;> simp_all [Values.Get_Set, Values.Get_empty]

/-- Claim C8: every endpoint method of `activites.go` and `clubs.go` invokes its
transport helper exactly once and hands the reply on: the error it returns is the
helper's error unchanged (so it returns an error exactly when the helper did), with a
`nil` record or list beside it, and without an error the record or list returned is the
value the helper decoded. -/
theorem every_method_is_one_helper_call {Ctx W ε β α τ T : Type}
    (helper : Transport Ctx W ε β α) (listHelper : Transport Ctx W ε β (Slice τ))
    (sc : StravaClubs Ctx W ε β α) (scList : StravaClubs Ctx W ε β (Slice τ))
    (format : T → String) (ctx : Ctx) (id : Int) (payload : NewActivityRequest T)
    (includeEfforts : Bool) (ua : β) (commentsOpt : Option ListActivityCommentsOptions)
    (opt : Option GeneralParams) (athleteOpt : Option ListAthleteActivitiesOptions)
    (n : Net W β) :
    OneCall helper ctx n some none (CreateActivity helper format ctx payload n) ∧
    OneCall helper ctx n some none (GetActivity helper ctx id includeEfforts n) ∧
    OneCall listHelper ctx n (fun resp => resp) none (GetActivityZones listHelper ctx id n) ∧
    OneCall listHelper ctx n (fun resp => resp) none
      (ListActivityComments listHelper ctx id commentsOpt n) ∧
    OneCall listHelper ctx n (fun resp => resp) none
      (ListActivityKudoers listHelper ctx id opt n) ∧
    OneCall listHelper ctx n (fun resp => resp) none (ListActivityLaps listHelper ctx id n) ∧
    OneCall listHelper ctx n (fun resp => resp) none
      (ListAthleteActivities listHelper ctx athleteOpt n) ∧
    OneCall helper ctx n some none (UpdateActivity helper ctx id ua n) ∧
    OneCall sc.get ctx n some none (sc.GetById ctx id n) ∧
    OneCall scList.get ctx n (fun resp => resp) none (scList.GetAdministrators ctx id opt n) ∧
    OneCall scList.get ctx n (fun resp => resp) none (scList.GetActivities ctx id opt n) ∧
    OneCall scList.get ctx n (fun resp => resp) none (scList.GetMembers ctx id opt n) :=
  ⟨OneCall_pointer helper ctx _ n, OneCall_pointer helper ctx _ n,
    OneCall_slice listHelper ctx _ n, OneCall_slice listHelper ctx _ n,
    OneCall_slice listHelper ctx _ n, OneCall_slice listHelper ctx _ n,
    OneCall_slice listHelper ctx _ n, OneCall_pointer helper ctx _ n,
    OneCall_pointer sc.get ctx _ n, OneCall_slice scList.get ctx _ n,
    OneCall_slice scList.get ctx _ n, OneCall_slice scList.get ctx _ n⟩

/-- Claim C1, code evaluated where it departs from the claim.  With `Page = 1` and
`PerPage = 50`, `ListActivityKudoers` and `ListAthleteActivities` send `per_page` with
the value `1`, the decimal `Page`, not `50`; with `Page = 0` and `PerPage = 50` the three
club listings send no `per_page` key at all. -/
theorem per_page_departs_from_PerPage {Ctx W ε β τ : Type}
    (get : Transport Ctx W ε β (Slice τ)) (sc : StravaClubs Ctx W ε β (Slice τ))
    (ctx : Ctx) (n : Net W β) :
    (∃ params : Values,
      (ListActivityKudoers get ctx 1 (some ⟨1, 50⟩) n).2.calls =
        n.calls ++ [Call.get "/activities/1/kudos" (some params)] ∧
      params.Get "per_page" = some ["1"] ∧ params.Get "per_page" ≠ some [Itoa 50]) ∧
    (∃ params : Values,
      (ListAthleteActivities get ctx (some ⟨⟨1, 50⟩, 0, 0⟩) n).2.calls =
        n.calls ++ [Call.get "/athlete/activities" (some params)] ∧
      params.Get "per_page" = some ["1"] ∧ params.Get "per_page" ≠ some [Itoa 50]) ∧
    (∃ params : Values,
      (sc.GetAdministrators ctx 1 (some ⟨0, 50⟩) n).2.calls =
        n.calls ++ [Call.getWithToken sc.accessToken "/clubs/1/admins" (some params)] ∧
      params.Get "per_page" = none) ∧
    (∃ params : Values,
      (sc.GetActivities ctx 1 (some ⟨0, 50⟩) n).2.calls =
        n.calls ++ [Call.getWithToken sc.accessToken "/clubs/1/activities" (some params)] ∧
      params.Get "per_page" = none) ∧
    (∃ params : Values,
      (sc.GetMembers ctx 1 (some ⟨0, 50⟩) n).2.calls =
        n.calls ++ [Call.getWithToken sc.accessToken "/clubs/1/members" (some params)] ∧
      params.Get "per_page" = none) :=
  ⟨⟨_, ListActivityKudoers_calls get ctx 1 (some ⟨1, 50⟩) n, rfl, by decide⟩,
    ⟨_, ListAthleteActivities_calls get ctx (some ⟨⟨1, 50⟩, 0, 0⟩) n, rfl, by decide⟩,
    ⟨_, GetAdministrators_calls sc ctx 1 (some ⟨0, 50⟩) n, rfl⟩,
    ⟨_, GetActivities_calls sc ctx 1 (some ⟨0, 50⟩) n, rfl⟩,
    ⟨_, GetMembers_calls sc ctx 1 (some ⟨0, 50⟩) n, rfl⟩⟩

/-- Claim C2, code evaluated where it departs from the claim.  With `Page = 2` and
`PerPage = 0` the three club listings send `per_page` with the value `0`; with
`Page = 0` and `PerPage = 5`, `ListActivityKudoers` and `ListAthleteActivities` send
`per_page` with the value `0` as well. -/
theorem zero_field_is_sent {Ctx W ε β τ : Type}
    (get : Transport Ctx W ε β (Slice τ)) (sc : StravaClubs Ctx W ε β (Slice τ))
    (ctx : Ctx) (n : Net W β) :
    (sc.GetMembers ctx 1 (some ⟨2, 0⟩) n).2.calls =
      n.calls ++ [Call.getWithToken sc.accessToken "/clubs/1/members"
        (some [("page", ["2"]), ("per_page", ["0"])])] ∧
    (sc.GetAdministrators ctx 1 (some ⟨2, 0⟩) n).2.calls =
      n.calls ++ [Call.getWithToken sc.accessToken "/clubs/1/admins"
        (some [("page", ["2"]), ("per_page", ["0"])])] ∧
    (sc.GetActivities ctx 1 (some ⟨2, 0⟩) n).2.calls =
      n.calls ++ [Call.getWithToken sc.accessToken "/clubs/1/activities"
        (some [("page", ["2"]), ("per_page", ["0"])])] ∧
    (ListActivityKudoers get ctx 1 (some ⟨0, 5⟩) n).2.calls =
      n.calls ++ [Call.get "/activities/1/kudos" (some [("per_page", ["0"])])] ∧
    (ListAthleteActivities get ctx (some ⟨⟨0, 5⟩, 0, 0⟩) n).2.calls =
      n.calls ++ [Call.get "/athlete/activities" (some [("per_page", ["0"])])] :=
  ⟨GetMembers_calls sc ctx 1 (some ⟨2, 0⟩) n,
    GetAdministrators_calls sc ctx 1 (some ⟨2, 0⟩) n,
    GetActivities_calls sc ctx 1 (some ⟨2, 0⟩) n,
    ListActivityKudoers_calls get ctx 1 (some ⟨0, 5⟩) n,
    ListAthleteActivities_calls get ctx (some ⟨⟨0, 5⟩, 0, 0⟩) n⟩

/-- Claim C6, code evaluated where it departs from the claim.  With `Page = 2`,
`ListAthleteActivities` sends the page number under the key `page_size`: its parameter
set is `page_size = 2` alone and holds no `page` key. -/
theorem ListAthleteActivities_page_under_page_size {Ctx W ε β τ : Type}
    (get : Transport Ctx W ε β (Slice τ)) (ctx : Ctx) (n : Net W β) :
    ∃ params : Values,
      (ListAthleteActivities get ctx (some ⟨⟨2, 0⟩, 0, 0⟩) n).2.calls =
        n.calls ++ [Call.get "/athlete/activities" (some params)] ∧
      params = [("page_size", ["2"])] ∧
      params.Get "page" = none ∧
      params.Get "page_size" = some ["2"] :=
  ⟨_, ListAthleteActivities_calls get ctx (some ⟨⟨2, 0⟩, 0, 0⟩) n, rfl, rfl, rfl⟩

/-- Claim C7, code evaluated where it departs from the claim.  For every activity id
`GetActivityZones` requests the path `/activities/<id>`, the very path `GetActivity`
requests; for id 12345 that is `/activities/12345`, not `/activities/12345/zones`. -/
theorem GetActivityZones_requests_activity_path {Ctx W ε β α τ : Type}
    (get : Transport Ctx W ε β α) (listGet : Transport Ctx W ε β (Slice τ)) (ctx : Ctx)
    (activityID : Int) (includeEfforts : Bool) (n : Net W β) :
    (GetActivityZones listGet ctx activityID n).2.calls =
      n.calls ++ [Call.get ("/activities/" ++ Itoa activityID) none] ∧
    (GetActivityZones listGet ctx activityID n).2.calls.map Call.path =
      (GetActivity get ctx activityID includeEfforts n).2.calls.map Call.path ∧
    (GetActivityZones listGet ctx 12345 n).2.calls =
      n.calls ++ [Call.get "/activities/12345" none] ∧
    "/activities/12345" ≠ "/activities/" ++ Itoa 12345 ++ "/zones" := by
  refine ⟨GetActivityZones_calls listGet ctx activityID n, ?_,
    GetActivityZones_calls listGet ctx 12345 n, by decide⟩
  rw [GetActivityZones_calls, GetActivity_calls]
  simp [Call.path]

end GoStrava
